import Mathlib

/-!
Shallow embedding of `grpc-sys/build.rs` (the cargo build script of the
`grpc-sys` crate).  The script is modelled as a pure function over an
explicit `World` describing everything the script observes from its
environment: the compile-time feature flags and target cfgs, the process
environment variables, the filesystem (directory listings of the vendored
submodules), the pkg-config registry, and the output directory produced by
the cmake invocation.  Every `println!("cargo:...")` directive, every env
read, every cmake configuration call and every pkg-config probe is recorded
as an `Event` in an ordered trace; a `panic!` is modelled as a `BuildError`
terminating the run with the trace emitted so far.
-/

namespace GrpcSys

/-- Target operating system, as observed by the script's `cfg!(target_os)`. -/
inductive Os
  | linux
  | macos
  | windows
  | other
  deriving DecidableEq, Repr

/-- The state of one environment variable as seen by `std::env::var`:
absent, present with a valid Unicode value, or present but not Unicode. -/
inductive EnvVal
  | absent
  | str (s : String)
  | nonUnicode
  deriving DecidableEq, Repr

/-- Result of `pkg_config`'s successful probe: the library descriptor
(only the include paths are consumed by the script). -/
structure Library where
  include_paths : List String
  deriving DecidableEq, Repr

/-- Everything `build.rs` observes from the outside world. -/
structure World where
  /-- `cfg!(feature = "secure")`. -/
  secure : Bool
  /-- `cfg!(target_os = ...)`. -/
  target_os : Os
  /-- `cfg!(target_env = "msvc")`. -/
  msvc : Bool
  /-- The process environment: one `EnvVal` per variable name. -/
  env : String → EnvVal
  /-- `fs::read_dir`: `none` models an `io::Error` (e.g. missing directory),
  `some entries` the directory listing (without `.` and `..`). -/
  read_dir : String → Option (List String)
  /-- The pkg-config registry: given a minimum version and a library name,
  `none` models a probe error (library not found at or above the version). -/
  pkg_probe : String → String → Option Library
  /-- `dst.display()` of the cmake build output root. -/
  cmake_dst : String

/-- One observable action of the build script, in emission order. -/
inductive Event
  | rerunIfChanged (s : String)
  | rerunIfEnvChanged (name : String)
  | envRead (name : String)
  | linkSearchNative (path : String)
  | linkLibStatic (name : String)
  | cmakeDefine (key value : String)
  | cmakeCxxflag (flag : String)
  | cmakeBuildTarget (target : String)
  | pkgProbeCall (library : String) (cargoMetadata : Bool)
  | ccCompile (archive : String)
  deriving DecidableEq, Repr

/-- The ways the script can `panic!`. -/
inductive BuildError
  | probeNotFound (library : String)
  | missingModule (module : String)
  | envNotUnicode (name : String)
  deriving DecidableEq, Repr

/-- `std::env::VarError`. -/
inductive VarError
  | notPresent
  | notUnicode
  deriving DecidableEq, Repr

/-- Accumulated state of the `cc::Build` builder. -/
structure CcBuild where
  defines : List (String × Option String) := []
  includes : List String := []
  flags : List String := []
  files : List String := []
  cpp : Bool := false
  warnings_into_errors : Bool := false
  deriving DecidableEq, Repr

/-- `cc::Build::new()`. -/
def CcBuild.new : CcBuild := {}

/-- `const GRPC_VERSION: &'static str = "1.13.0";` -/
def GRPC_VERSION : String := "1.13.0"

/-- `std::env::var(name)`. -/
def env_var (w : World) (name : String) : Except VarError String :=
  match w.env name with
  | .absent => .error .notPresent
  | .str s => .ok s
  | .nonUnicode => .error .notUnicode

/-- `Result::unwrap_or` specialised to `env::var` results. -/
def unwrap_or (r : Except VarError String) (d : String) : String :=
  match r with
  | .ok s => s
  | .error _ => d

/-- `fn probe_library(library, cargo_metadata) -> Library`: probes pkg-config
with minimum version `GRPC_VERSION`; panics when the probe errs. -/
def probe_library (w : World) (library : String) (cargo_metadata : Bool) :
    List Event × Except BuildError Library :=
  ([Event.pkgProbeCall library cargo_metadata],
    match w.pkg_probe GRPC_VERSION library with
    | some lib => Except.ok lib
    | none => Except.error (BuildError.probeNotFound library))

/-- The `modules` vector of `prepare_grpc`: the required vendored submodule
directories; boringssl is appended only under the `secure` feature. -/
def grpc_modules (secure : Bool) : List String :=
  ["grpc", "grpc/third_party/zlib", "grpc/third_party/cares/cares",
   "grpc/third_party/address_sorting"] ++
    (if secure then ["grpc/third_party/boringssl"] else [])

/-- `fn is_directory_empty(p) -> Result<bool, io::Error>`: reads the
directory and asks whether its iterator yields no entry. -/
def is_directory_empty (w : World) (p : String) : Option Bool :=
  (w.read_dir p).map List.isEmpty

/-- The loop body of `prepare_grpc` over the module list: panics
(`missingModule`) at the first module whose directory read errs
(`unwrap_or(true)`) or is empty. -/
def check_modules (w : World) : List String → Except BuildError Unit
  | [] => Except.ok ()
  | m :: rest =>
    if (is_directory_empty w m).getD true then
      Except.error (BuildError.missingModule m)
    else
      check_modules w rest

/-- `fn prepare_grpc()`. -/
def prepare_grpc (w : World) : Except BuildError Unit :=
  check_modules w (grpc_modules w.secure)

/-- The cmake `Config` calls of `build_grpc`, in call order, as events. -/
def cmake_config_events (w : World) (library_cpp : String) : List Event :=
  (if !w.secure then [Event.cmakeDefine "GO_EXECUTABLE" "fake-go-nonexist"] else []) ++
    (if w.target_os = Os.macos then
      [Event.cmakeCxxflag "-stdlib=libc++", Event.cmakeDefine "CMAKE_MACOSX_RPATH" "ON"]
    else []) ++
    [Event.envRead "CARGO_CFG_TARGET_ENV"] ++
    (if unwrap_or (env_var w "CARGO_CFG_TARGET_ENV") "" = "musl" then
      [Event.cmakeDefine "CMAKE_CXX_COMPILER" "g++"]
    else []) ++
    [Event.cmakeDefine "gRPC_INSTALL" "false", Event.cmakeBuildTarget library_cpp]

/-- The `third_party` vector of `build_grpc`. -/
def third_party : List String :=
  ["cares/cares/lib", "zlib", "boringssl/ssl", "boringssl/crypto"]

/-- The Windows `match` on `PROFILE`: yields the zlib library name and the
cmake configuration subdirectory name. -/
def windows_profile (pval : String) : String × String :=
  if pval = "bench" ∨ pval = "release" then ("zlibstatic", "Release")
  else ("zlibstaticd", "Debug")

/-- `env::var("PROFILE").unwrap_or("debug")`. -/
def profile_value (w : World) : String :=
  unwrap_or (env_var w "PROFILE") "debug"

/-- The `zlib` name selected by `build_grpc`: varied by `PROFILE` on
Windows, the fixed `"z"` everywhere else. -/
def zlib_name (w : World) : String :=
  if w.target_os = Os.windows then (windows_profile (profile_value w)).1 else "z"

/-- The profile-named output subdirectory used on Windows. -/
def profile_dir (w : World) : String :=
  (windows_profile (profile_value w)).2

/-- The ordered `cargo:rustc-link-search=native` paths emitted by
`build_grpc`: build root first, then one per third-party directory; on
Windows, each is suffixed with the profile subdirectory. -/
def search_paths (w : World) (build_dir : String) : List String :=
  if w.target_os = Os.windows then
    (build_dir ++ "/" ++ profile_dir w) ::
      third_party.map (fun p => build_dir ++ "/third_party/" ++ p ++ "/" ++ profile_dir w)
  else
    build_dir :: third_party.map (fun p => build_dir ++ "/third_party/" ++ p)

/-- The ordered `cargo:rustc-link-lib=static` names emitted by
`build_grpc`. -/
def link_lib_events (secure : Bool) (zlib library library_cpp : String) : List Event :=
  [Event.linkLibStatic zlib, Event.linkLibStatic "cares", Event.linkLibStatic "gpr",
   Event.linkLibStatic "address_sorting", Event.linkLibStatic library,
   Event.linkLibStatic library_cpp] ++
    (if secure then [Event.linkLibStatic "ssl", Event.linkLibStatic "crypto"] else [])

/-- `fn build_grpc(cc, library, library_cpp)`: validates the submodules,
drives the cmake build, emits the link plan, and adds the vendored include
directory to the `cc` builder. -/
def build_grpc (w : World) (cc : CcBuild) (library library_cpp : String) :
    List Event × Except BuildError CcBuild :=
  match prepare_grpc w with
  | Except.error e => ([], Except.error e)
  | Except.ok _ =>
    let build_dir := w.cmake_dst ++ "/build"
    let evs :=
      cmake_config_events w library_cpp ++
        (if w.target_os = Os.windows then [Event.envRead "PROFILE"] else []) ++
        (search_paths w build_dir).map Event.linkSearchNative ++
        link_lib_events w.secure (zlib_name w) library library_cpp
    (evs, Except.ok { cc with includes := cc.includes ++ ["grpc/include"] })

/-- `fn get_env(name) -> Option<String>`: emits the rerun record, reads the
variable, panics on a non-Unicode value. -/
def get_env (w : World) (name : String) :
    List Event × Except BuildError (Option String) :=
  ([Event.rerunIfEnvChanged name, Event.envRead name],
    match env_var w name with
    | Except.ok s => Except.ok (some s)
    | Except.error VarError.notPresent => Except.ok none
    | Except.error VarError.notUnicode => Except.error (BuildError.envNotUnicode name))

/-- The `(library_c, library_cpp)` pair selected in `main` from the
`secure` feature. -/
def lib_names (secure : Bool) : String × String :=
  if secure then ("grpc", "grpc++") else ("grpc_unsecure", "grpc++_unsecure")

/-- `use_pkg_config`: the acquisition-strategy toggle computed in `main`
from `GRPCIO_SYS_USE_PKG_CONFIG` via `map_or(false, |s| s == "1")`.
(Defined on the successful result of `get_env`; `main_build` aborts before
consulting it when `get_env` panics.) -/
def use_pkg_config_flag (w : World) : Bool :=
  match (get_env w "GRPCIO_SYS_USE_PKG_CONFIG").2 with
  | Except.ok (some s) => s == "1"
  | _ => false

/-- The outcome of one run of the build script: the ordered event trace,
the final `cc::Build` state, and the panic that ended the run, if any. -/
structure BuildResult where
  trace : List Event
  cc : CcBuild
  error : Option BuildError
  deriving DecidableEq, Repr

/-- The tail of `main` after the acquisition branch: `cc.cpp(true)`, the
conditional `-std=c++11` flag, the shim source file, the Windows platform
macro, warnings-as-errors, `cc.compile`, and — on the pkg-config path —
the two final metadata-emitting probes. -/
def main_finish (w : World) (evs : List Event) (cc : CcBuild)
    (use_pkg_config : Bool) (library_c library_cpp : String) : BuildResult :=
  let cc := { cc with cpp := true }
  let cc := if !w.msvc then { cc with flags := cc.flags ++ ["-std=c++11"] } else cc
  let cc := { cc with files := cc.files ++ ["grpc_wrap.cc"] }
  let cc :=
    if w.target_os = Os.windows then
      { cc with defines := cc.defines ++ [("_WIN32_WINNT", some "0x0700")] }
    else cc
  let cc := { cc with warnings_into_errors := true }
  let evs := evs ++ [Event.ccCompile "libgrpc_wrap.a"]
  if use_pkg_config then
    let (pe1, r1) := probe_library w library_c true
    match r1 with
    | Except.error e => { trace := evs ++ pe1, cc := cc, error := some e }
    | Except.ok _ =>
      let (pe2, r2) := probe_library w library_cpp true
      match r2 with
      | Except.error e => { trace := evs ++ pe1 ++ pe2, cc := cc, error := some e }
      | Except.ok _ => { trace := evs ++ pe1 ++ pe2, cc := cc, error := none }
  else
    { trace := evs, cc := cc, error := none }

/-- The `cc` builder as it stands after `main`'s feature branch: fresh,
with the `GRPC_SYS_SECURE` define added under the secure feature. -/
def initial_cc (secure : Bool) : CcBuild :=
  if secure then
    { CcBuild.new with defines := CcBuild.new.defines ++ [("GRPC_SYS_SECURE", none)] }
  else CcBuild.new

/-- `fn main()`: the whole build script as a function of the world. -/
def main_build (w : World) : BuildResult :=
  let evs0 := [Event.rerunIfChanged "grpc_wrap.c", Event.rerunIfChanged "grpc"]
  let cc1 := initial_cc w.secure
  let library_c := (lib_names w.secure).1
  let library_cpp := (lib_names w.secure).2
  let (envEvs, envRes) := get_env w "GRPCIO_SYS_USE_PKG_CONFIG"
  match envRes with
  | Except.error e => { trace := evs0 ++ envEvs, cc := cc1, error := some e }
  | Except.ok _ =>
    let use_pkg_config := use_pkg_config_flag w
    if use_pkg_config then
      let (pe1, r1) := probe_library w library_c false
      match r1 with
      | Except.error e => { trace := evs0 ++ envEvs ++ pe1, cc := cc1, error := some e }
      | Except.ok lib_core =>
        let cc2 := { cc1 with includes := cc1.includes ++ lib_core.include_paths }
        let (pe2, r2) := probe_library w library_cpp false
        match r2 with
        | Except.error e =>
          { trace := evs0 ++ envEvs ++ pe1 ++ pe2, cc := cc2, error := some e }
        | Except.ok lib_cpp =>
          let cc3 := { cc2 with includes := cc2.includes ++ lib_cpp.include_paths }
          main_finish w (evs0 ++ envEvs ++ pe1 ++ pe2) cc3 use_pkg_config
            library_c library_cpp
    else
      let (be, br) := build_grpc w cc1 library_c library_cpp
      match br with
      | Except.error e => { trace := evs0 ++ envEvs ++ be, cc := cc1, error := some e }
      | Except.ok cc2 =>
        main_finish w (evs0 ++ envEvs ++ be) cc2 use_pkg_config library_c library_cpp

/-! Concrete worlds used to exercise the model on closed inputs. -/

/-- A secure Linux world: all submodules present, pkg-config available,
no environment variables set. -/
def secureLinuxWorld : World where
  secure := true
  target_os := Os.linux
  msvc := false
  env := fun _ => EnvVal.absent
  read_dir := fun _ => some ["a", "b"]
  pkg_probe := fun _ _ => some { include_paths := ["/usr/include/grpc"] }
  cmake_dst := "/out"

/-- An insecure Linux world. -/
def insecureLinuxWorld : World :=
  { secureLinuxWorld with secure := false }

/-- A world whose every directory holds exactly one (ordinary) entry. -/
def oneEntryWorld : World :=
  { secureLinuxWorld with read_dir := fun _ => some ["entry"] }

/-- A world whose every directory holds exactly one hidden placeholder
entry and nothing else. -/
def hiddenOnlyWorld : World :=
  { secureLinuxWorld with read_dir := fun _ => some [".gitkeep"] }

/-- A Windows world with `PROFILE=release`. -/
def winReleaseWorld : World :=
  { secureLinuxWorld with
    target_os := Os.windows
    msvc := true
    env := fun n => if n = "PROFILE" then EnvVal.str "release" else EnvVal.absent }

/-- A Windows world with `PROFILE=debug`, otherwise identical to
`winReleaseWorld`. -/
def winDebugWorld : World :=
  { winReleaseWorld with
    env := fun n => if n = "PROFILE" then EnvVal.str "debug" else EnvVal.absent }

/-- A Windows world whose `PROFILE` variable holds non-Unicode data. -/
def winNonUnicodeProfileWorld : World :=
  { secureLinuxWorld with
    target_os := Os.windows
    msvc := true
    env := fun n => if n = "PROFILE" then EnvVal.nonUnicode else EnvVal.absent }

/-- A world selecting the pkg-config path whose probe never finds the
library. -/
def pkgFailWorld : World :=
  { secureLinuxWorld with
    env := fun n => if n = "GRPCIO_SYS_USE_PKG_CONFIG" then EnvVal.str "1" else EnvVal.absent
    pkg_probe := fun _ _ => none }

/-- A world selecting the pkg-config path whose probe succeeds. -/
def pkgOkWorld : World :=
  { secureLinuxWorld with
    env := fun n => if n = "GRPCIO_SYS_USE_PKG_CONFIG" then EnvVal.str "1" else EnvVal.absent }

/-- A world where the toggle variable holds `"true"` rather than `"1"`. -/
def pkgTrueValueWorld : World :=
  { secureLinuxWorld with
    env := fun n => if n = "GRPCIO_SYS_USE_PKG_CONFIG" then EnvVal.str "true" else EnvVal.absent }

/-- Projects the static-library name out of a link directive. -/
def static_lib_of : Event → Option String
  | Event.linkLibStatic n => some n
  | _ => none

/-- Projects probe invocations (library name, metadata flag) and shim
compilations out of the trace, dropping every other event. -/
def probe_or_compile : Event → Option (Sum (String × Bool) Unit)
  | Event.pkgProbeCall l m => some (Sum.inl (l, m))
  | Event.ccCompile _ => some (Sum.inr ())
  | _ => none

/-- `w` with its `PROFILE` variable replaced by `v`. -/
def with_profile (w : World) (v : EnvVal) : World :=
  { w with env := fun n => if n = "PROFILE" then v else w.env n }

/-! Helper lemmas. -/

theorem dir_check_true_iff (w : World) (m : String) :
    (is_directory_empty w m).getD true = true ↔
      w.read_dir m = none ∨ w.read_dir m = some [] := by
  unfold is_directory_empty
  cases h : w.read_dir m with
  | none => simp
  | some l => simp [List.isEmpty_iff]

theorem dir_check_false_iff (w : World) (m : String) :
    (is_directory_empty w m).getD true = false ↔
      ∃ entries, w.read_dir m = some entries ∧ entries ≠ [] := by
  unfold is_directory_empty
  cases h : w.read_dir m with
  | none => simp
  | some l => simp [List.isEmpty_iff]

theorem check_modules_ok_iff (w : World) (ms : List String) :
    check_modules w ms = Except.ok () ↔
      ∀ m ∈ ms, (is_directory_empty w m).getD true = false := by
  induction ms with
  | nil => simp [check_modules]
  | cons m rest ih =>
    cases hb : (is_directory_empty w m).getD true with
    | true => simp [check_modules, hb]
    | false => simp [check_modules, hb, ih]

theorem check_modules_error_iff (w : World) (ms : List String) :
    (∃ e, check_modules w ms = Except.error e) ↔
      ∃ m ∈ ms, (is_directory_empty w m).getD true = true := by
  induction ms with
  | nil => simp [check_modules]
  | cons m rest ih =>
    cases hb : (is_directory_empty w m).getD true with
    | true => simp [check_modules, hb]
    | false => simp [check_modules, hb, ih]

theorem prepare_grpc_fails_iff (w : World) :
    (∃ e, prepare_grpc w = Except.error e) ↔
      ∃ m ∈ grpc_modules w.secure,
        (w.read_dir m = none ∨ w.read_dir m = some []) := by
  unfold prepare_grpc
  rw [check_modules_error_iff]
  refine exists_congr fun m => and_congr_right fun _ => dir_check_true_iff w m

theorem prepare_grpc_ok_iff (w : World) :
    prepare_grpc w = Except.ok () ↔
      ∀ m ∈ grpc_modules w.secure,
        ∃ entries, w.read_dir m = some entries ∧ entries ≠ [] := by
  unfold prepare_grpc
  rw [check_modules_ok_iff]
  exact forall₂_congr fun m _ => dir_check_false_iff w m

theorem linkLibStatic_not_mem_cmake (w : World) (lcpp n : String) :
    Event.linkLibStatic n ∉ cmake_config_events w lcpp := by
  unfold cmake_config_events
  split_ifs <;> simp

theorem pkgProbeCall_not_mem_cmake (w : World) (lcpp lib : String) (m : Bool) :
    Event.pkgProbeCall lib m ∉ cmake_config_events w lcpp := by
  unfold cmake_config_events
  split_ifs <;> simp

theorem cmakeDefine_mem_cmake_iff_go (w : World) (lcpp : String) :
    Event.cmakeDefine "GO_EXECUTABLE" "fake-go-nonexist" ∈ cmake_config_events w lcpp ↔
      w.secure = false := by
  unfold cmake_config_events
  cases hs : w.secure <;> simp [hs]

theorem mem_link_lib_events_iff (secure : Bool) (z l lcpp n : String) :
    Event.linkLibStatic n ∈ link_lib_events secure z l lcpp ↔
      n = z ∨ n = "cares" ∨ n = "gpr" ∨ n = "address_sorting" ∨ n = l ∨ n = lcpp ∨
        (secure = true ∧ (n = "ssl" ∨ n = "crypto")) := by
  unfold link_lib_events
  cases secure <;> simp

theorem zlib_name_cases (w : World) :
    zlib_name w = "z" ∨ zlib_name w = "zlibstatic" ∨ zlib_name w = "zlibstaticd" := by
  unfold zlib_name windows_profile
  split_ifs <;> simp

theorem build_grpc_ok (w : World) (cc : CcBuild) (l lcpp : String) (evs : List Event)
    (cc' : CcBuild) (h : build_grpc w cc l lcpp = (evs, Except.ok cc')) :
    evs = cmake_config_events w lcpp ++
        (if w.target_os = Os.windows then [Event.envRead "PROFILE"] else []) ++
        (search_paths w (w.cmake_dst ++ "/build")).map Event.linkSearchNative ++
        link_lib_events w.secure (zlib_name w) l lcpp
      ∧ cc' = { cc with includes := cc.includes ++ ["grpc/include"] }
      ∧ prepare_grpc w = Except.ok () := by
  unfold build_grpc at h
  cases hp : prepare_grpc w with
  | error e => rw [hp] at h; simp at h
  | ok u =>
    rw [hp] at h
    simp only [Prod.mk.injEq, Except.ok.injEq] at h
    exact ⟨h.1.symm, h.2.symm, rfl⟩

theorem filterMap_static_cmake (w : World) (lcpp : String) :
    (cmake_config_events w lcpp).filterMap static_lib_of = [] := by
  unfold cmake_config_events
  split_ifs <;> simp [static_lib_of]

theorem filterMap_static_search (w : World) (d : String) :
    ((search_paths w d).map Event.linkSearchNative).filterMap static_lib_of = [] := by
  rw [List.filterMap_map]
  simp [Function.comp, static_lib_of]

theorem filterMap_static_link_lib (secure : Bool) (z l lcpp : String) :
    (link_lib_events secure z l lcpp).filterMap static_lib_of =
      [z, "cares", "gpr", "address_sorting", l, lcpp] ++
        (if secure then ["ssl", "crypto"] else []) := by
  unfold link_lib_events
  cases secure <;> simp [static_lib_of]

theorem pkgProbeCall_not_mem_build_grpc (w : World) (cc : CcBuild) (l lcpp : String)
    (lib : String) (m : Bool) :
    Event.pkgProbeCall lib m ∉ (build_grpc w cc l lcpp).1 := by
  unfold build_grpc
  cases hp : prepare_grpc w with
  | error e => simp
  | ok u =>
    simp only []
    intro hmem
    rcases List.mem_append.1 hmem with hmem' | hlib
    · rcases List.mem_append.1 hmem' with hmem'' | hsearch
      · rcases List.mem_append.1 hmem'' with hcmake | hprof
        · exact pkgProbeCall_not_mem_cmake w lcpp lib m hcmake
        · revert hprof; split_ifs <;> simp
      · revert hsearch; simp
    · revert hlib; unfold link_lib_events; cases w.secure <;> simp

theorem use_pkg_config_flag_iff (w : World) :
    use_pkg_config_flag w = true ↔
      w.env "GRPCIO_SYS_USE_PKG_CONFIG" = EnvVal.str "1" := by
  unfold use_pkg_config_flag get_env env_var
  cases h : w.env "GRPCIO_SYS_USE_PKG_CONFIG" with
  | absent => simp
  | str s => simp
  | nonUnicode => simp

theorem main_build_pkg_fail_core_error (w : World)
    (henv : w.env "GRPCIO_SYS_USE_PKG_CONFIG" = EnvVal.str "1")
    (hc : w.pkg_probe GRPC_VERSION (lib_names w.secure).1 = none) :
    (main_build w).error = some (BuildError.probeNotFound (lib_names w.secure).1) := by
  unfold main_build use_pkg_config_flag get_env env_var probe_library
  simp [henv, hc]

theorem main_build_pkg_fail_core_trace (w : World)
    (henv : w.env "GRPCIO_SYS_USE_PKG_CONFIG" = EnvVal.str "1")
    (hc : w.pkg_probe GRPC_VERSION (lib_names w.secure).1 = none) :
    (main_build w).trace =
      [Event.rerunIfChanged "grpc_wrap.c", Event.rerunIfChanged "grpc",
       Event.rerunIfEnvChanged "GRPCIO_SYS_USE_PKG_CONFIG",
       Event.envRead "GRPCIO_SYS_USE_PKG_CONFIG",
       Event.pkgProbeCall (lib_names w.secure).1 false] := by
  unfold main_build use_pkg_config_flag get_env env_var probe_library
  simp [henv, hc]

theorem main_build_pkg_fail_cpp_error (w : World)
    (henv : w.env "GRPCIO_SYS_USE_PKG_CONFIG" = EnvVal.str "1")
    (libc : Library)
    (hc : w.pkg_probe GRPC_VERSION (lib_names w.secure).1 = some libc)
    (hcpp : w.pkg_probe GRPC_VERSION (lib_names w.secure).2 = none) :
    (main_build w).error = some (BuildError.probeNotFound (lib_names w.secure).2) := by
  unfold main_build use_pkg_config_flag get_env env_var probe_library
  simp [henv, hc, hcpp]

theorem main_build_pkg_fail_cpp_trace (w : World)
    (henv : w.env "GRPCIO_SYS_USE_PKG_CONFIG" = EnvVal.str "1")
    (libc : Library)
    (hc : w.pkg_probe GRPC_VERSION (lib_names w.secure).1 = some libc)
    (hcpp : w.pkg_probe GRPC_VERSION (lib_names w.secure).2 = none) :
    (main_build w).trace =
      [Event.rerunIfChanged "grpc_wrap.c", Event.rerunIfChanged "grpc",
       Event.rerunIfEnvChanged "GRPCIO_SYS_USE_PKG_CONFIG",
       Event.envRead "GRPCIO_SYS_USE_PKG_CONFIG",
       Event.pkgProbeCall (lib_names w.secure).1 false,
       Event.pkgProbeCall (lib_names w.secure).2 false] := by
  unfold main_build use_pkg_config_flag get_env env_var probe_library
  simp [henv, hc, hcpp]

theorem main_build_pkg_ok_trace (w : World)
    (henv : w.env "GRPCIO_SYS_USE_PKG_CONFIG" = EnvVal.str "1")
    (libc libcpp : Library)
    (hc : w.pkg_probe GRPC_VERSION (lib_names w.secure).1 = some libc)
    (hcpp : w.pkg_probe GRPC_VERSION (lib_names w.secure).2 = some libcpp) :
    (main_build w).trace =
      [Event.rerunIfChanged "grpc_wrap.c", Event.rerunIfChanged "grpc",
       Event.rerunIfEnvChanged "GRPCIO_SYS_USE_PKG_CONFIG",
       Event.envRead "GRPCIO_SYS_USE_PKG_CONFIG",
       Event.pkgProbeCall (lib_names w.secure).1 false,
       Event.pkgProbeCall (lib_names w.secure).2 false,
       Event.ccCompile "libgrpc_wrap.a",
       Event.pkgProbeCall (lib_names w.secure).1 true,
       Event.pkgProbeCall (lib_names w.secure).2 true] := by
  unfold main_build main_finish use_pkg_config_flag get_env env_var probe_library
  simp [henv, hc, hcpp]

theorem main_build_pkg_ok_error (w : World)
    (henv : w.env "GRPCIO_SYS_USE_PKG_CONFIG" = EnvVal.str "1")
    (libc libcpp : Library)
    (hc : w.pkg_probe GRPC_VERSION (lib_names w.secure).1 = some libc)
    (hcpp : w.pkg_probe GRPC_VERSION (lib_names w.secure).2 = some libcpp) :
    (main_build w).error = none := by
  unfold main_build main_finish use_pkg_config_flag get_env env_var probe_library
  simp [henv, hc, hcpp]

theorem main_build_pkg_ok_includes (w : World)
    (henv : w.env "GRPCIO_SYS_USE_PKG_CONFIG" = EnvVal.str "1")
    (libc libcpp : Library)
    (hc : w.pkg_probe GRPC_VERSION (lib_names w.secure).1 = some libc)
    (hcpp : w.pkg_probe GRPC_VERSION (lib_names w.secure).2 = some libcpp) :
    (main_build w).cc.includes = libc.include_paths ++ libcpp.include_paths := by
  unfold main_build main_finish use_pkg_config_flag get_env env_var probe_library
  simp [henv, hc, hcpp, initial_cc, CcBuild.new]
  cases w.secure <;> split_ifs <;> simp

theorem main_build_pkg_error_of_probe_fail (w : World)
    (hflag : use_pkg_config_flag w = true)
    (h : w.pkg_probe GRPC_VERSION (lib_names w.secure).1 = none ∨
         w.pkg_probe GRPC_VERSION (lib_names w.secure).2 = none) :
    ∃ lib, (main_build w).error = some (BuildError.probeNotFound lib) := by
  have henv := (use_pkg_config_flag_iff w).1 hflag
  cases hc : w.pkg_probe GRPC_VERSION (lib_names w.secure).1 with
  | none => exact ⟨_, main_build_pkg_fail_core_error w henv hc⟩
  | some libc =>
    cases hcpp : w.pkg_probe GRPC_VERSION (lib_names w.secure).2 with
    | none => exact ⟨_, main_build_pkg_fail_cpp_error w henv libc hc hcpp⟩
    | some libcpp =>
      rcases h with h1 | h2
      · rw [hc] at h1; exact absurd h1 (by simp)
      · rw [hcpp] at h2; exact absurd h2 (by simp)

theorem main_build_no_probe_of_flag_false (w : World)
    (hflag : use_pkg_config_flag w = false) (lib : String) (m : Bool) :
    Event.pkgProbeCall lib m ∉ (main_build w).trace := by
  have hbe := pkgProbeCall_not_mem_build_grpc w (initial_cc w.secure)
    (lib_names w.secure).1 (lib_names w.secure).2 lib m
  rcases hbg : build_grpc w (initial_cc w.secure) (lib_names w.secure).1 (lib_names w.secure).2
    with ⟨be, br⟩
  rw [hbg] at hbe
  cases henv : w.env "GRPCIO_SYS_USE_PKG_CONFIG" with
  | nonUnicode =>
    unfold main_build get_env env_var
    simp [henv]
  | absent =>
    unfold main_build main_finish get_env env_var
    cases br with
    | error e => simp [henv, hflag, hbg, hbe]
    | ok cc2 => simp [henv, hflag, hbg, hbe]
  | str s =>
    unfold main_build main_finish get_env env_var
    cases br with
    | error e => simp [henv, hflag, hbg, hbe]
    | ok cc2 => simp [henv, hflag, hbg, hbe]

theorem main_build_pkg_no_cmake (w : World)
    (hflag : use_pkg_config_flag w = true) (t : String) :
    Event.cmakeBuildTarget t ∉ (main_build w).trace := by
  have henv := (use_pkg_config_flag_iff w).1 hflag
  cases hc : w.pkg_probe GRPC_VERSION (lib_names w.secure).1 with
  | none => rw [main_build_pkg_fail_core_trace w henv hc]; simp
  | some libc =>
    cases hcpp : w.pkg_probe GRPC_VERSION (lib_names w.secure).2 with
    | none => rw [main_build_pkg_fail_cpp_trace w henv libc hc hcpp]; simp
    | some libcpp => rw [main_build_pkg_ok_trace w henv libc libcpp hc hcpp]; simp

theorem main_build_pkg_no_compile_of_probe_fail (w : World)
    (hflag : use_pkg_config_flag w = true)
    (h : w.pkg_probe GRPC_VERSION (lib_names w.secure).1 = none ∨
         w.pkg_probe GRPC_VERSION (lib_names w.secure).2 = none) (a : String) :
    Event.ccCompile a ∉ (main_build w).trace := by
  have henv := (use_pkg_config_flag_iff w).1 hflag
  cases hc : w.pkg_probe GRPC_VERSION (lib_names w.secure).1 with
  | none => rw [main_build_pkg_fail_core_trace w henv hc]; simp
  | some libc =>
    cases hcpp : w.pkg_probe GRPC_VERSION (lib_names w.secure).2 with
    | none => rw [main_build_pkg_fail_cpp_trace w henv libc hc hcpp]; simp
    | some libcpp =>
      rcases h with h1 | h2
      · rw [hc] at h1; exact absurd h1 (by simp)
      · rw [hcpp] at h2; exact absurd h2 (by simp)

theorem rerunIfEnvChanged_not_mem_build_grpc (w : World) (cc : CcBuild)
    (l lcpp : String) (n : String) :
    Event.rerunIfEnvChanged n ∉ (build_grpc w cc l lcpp).1 := by
  unfold build_grpc
  cases hp : prepare_grpc w with
  | error e => simp
  | ok u =>
    simp only []
    intro hmem
    rcases List.mem_append.1 hmem with hmem' | hlib
    · rcases List.mem_append.1 hmem' with hmem'' | hsearch
      · rcases List.mem_append.1 hmem'' with hcmake | hprof
        · revert hcmake; unfold cmake_config_events; split_ifs <;> simp
        · revert hprof; split_ifs <;> simp
      · revert hsearch; simp
    · revert hlib; unfold link_lib_events; cases w.secure <;> simp

/-! The claims. -/

/-- Claim C1: for every value of the security feature flag, the derived
library name pair is exactly `("grpc", "grpc++")` when secure and
`("grpc_unsecure", "grpc++_unsecure")` when not, and on the vendored path
the static libraries `"ssl"` and `"crypto"` appear in the emitted link
plan if and only if the flag is true. -/
theorem secure_names_and_tls_iff (w : World) (cc cc' : CcBuild) (evs : List Event)
    (h : build_grpc w cc (lib_names w.secure).1 (lib_names w.secure).2 =
      (evs, Except.ok cc')) :
    (∀ b : Bool, lib_names b =
      if b then ("grpc", "grpc++") else ("grpc_unsecure", "grpc++_unsecure"))
    ∧ (Event.linkLibStatic "ssl" ∈ evs ↔ w.secure = true)
    ∧ (Event.linkLibStatic "crypto" ∈ evs ↔ w.secure = true) := by
  obtain ⟨hevs, -, -⟩ := build_grpc_ok w cc _ _ evs cc' h
  subst hevs
  refine ⟨fun b => rfl, ?_, ?_⟩ <;>
  · rcases zlib_name_cases w with hz | hz | hz <;>
      cases hs : w.secure <;>
        simp [List.mem_append, linkLibStatic_not_mem_cmake, mem_link_lib_events_iff,
          hz, hs, lib_names]

/-- Witness for C1 at a concrete secure Linux world. -/
theorem secure_names_and_tls_iff_witness :
    (∀ b : Bool, lib_names b =
      if b then ("grpc", "grpc++") else ("grpc_unsecure", "grpc++_unsecure"))
    ∧ (Event.linkLibStatic "ssl" ∈
        (build_grpc secureLinuxWorld CcBuild.new (lib_names secureLinuxWorld.secure).1
          (lib_names secureLinuxWorld.secure).2).1 ↔ secureLinuxWorld.secure = true)
    ∧ (Event.linkLibStatic "crypto" ∈
        (build_grpc secureLinuxWorld CcBuild.new (lib_names secureLinuxWorld.secure).1
          (lib_names secureLinuxWorld.secure).2).1 ↔ secureLinuxWorld.secure = true) :=
  secure_names_and_tls_iff secureLinuxWorld CcBuild.new
    { CcBuild.new with includes := ["grpc/include"] } _ rfl

/-- Claim C2, counterexample: a module directory whose only entry is the
hidden placeholder file `.gitkeep` — with no real content — passes the
prerequisite check, contradicting the claim that it must not. -/
theorem prereq_hidden_placeholder_cex :
    hiddenOnlyWorld.read_dir "grpc" = some [".gitkeep"]
    ∧ ".gitkeep".take 1 = "."
    ∧ prepare_grpc hiddenOnlyWorld = Except.ok () :=
  ⟨rfl, rfl, rfl⟩

/-- Claim C2, amended: the prerequisite check fails if and only if at
least one required vendored module directory is unreadable (e.g. missing)
or contains zero entries; a directory with exactly one entry passes, and
this holds even when that single entry is a hidden placeholder file — the
check counts entries without inspecting them. -/
theorem prereq_fails_iff_missing_or_empty (w : World) :
    ((∃ e, prepare_grpc w = Except.error e) ↔
      ∃ m ∈ grpc_modules w.secure,
        (w.read_dir m = none ∨ w.read_dir m = some []))
    ∧ prepare_grpc oneEntryWorld = Except.ok ()
    ∧ prepare_grpc hiddenOnlyWorld = Except.ok () :=
  ⟨prepare_grpc_fails_iff w, rfl, rfl⟩

/-- Claim C3: only on Windows are the emitted library search paths
suffixed with a profile-named subdirectory and the compression-library
name varied by the build profile; on every other platform the search
paths and the compression-library name (`"z"`) are independent of the
profile. -/
theorem windows_only_profile_dependence :
    (∀ (w : World) (v : EnvVal) (d : String), w.target_os ≠ Os.windows →
      zlib_name (with_profile w v) = "z"
      ∧ search_paths (with_profile w v) d =
          d :: third_party.map (fun p => d ++ "/third_party/" ++ p)
      ∧ search_paths (with_profile w v) d = search_paths w d)
    ∧ (∀ (w : World) (d : String), w.target_os = Os.windows →
      search_paths w d = (d ++ "/" ++ profile_dir w) ::
        third_party.map (fun p => d ++ "/third_party/" ++ p ++ "/" ++ profile_dir w))
    ∧ zlib_name winReleaseWorld = "zlibstatic"
    ∧ zlib_name winDebugWorld = "zlibstaticd"
    ∧ search_paths winReleaseWorld "B" ≠ search_paths winDebugWorld "B" := by
  refine ⟨?_, ?_, rfl, rfl, by decide⟩
  · intro w v d hw
    have hos : (with_profile w v).target_os = w.target_os := rfl
    refine ⟨?_, ?_, ?_⟩ <;> simp [zlib_name, search_paths, hos, hw]
  · intro w d hw
    simp [search_paths, hw]

/-- Witness for C3 at concrete worlds. -/
theorem windows_only_profile_dependence_witness :
    zlib_name (with_profile secureLinuxWorld (EnvVal.str "release")) = "z"
    ∧ zlib_name winReleaseWorld = "zlibstatic" :=
  ⟨(windows_only_profile_dependence.1 secureLinuxWorld (EnvVal.str "release") "B"
      (by decide)).1,
   windows_only_profile_dependence.2.2.1⟩

/-- Claim C4: on the vendored path the static library names are emitted
in exactly this order — the compression library (zlib variant), then
`"cares"`, `"gpr"`, `"address_sorting"`, the selected core library name,
the selected C++ library name, and, only when the security feature is
enabled, `"ssl"` followed by `"crypto"` at the end. -/
theorem vendored_static_link_order (w : World) (cc cc' : CcBuild) (l lcpp : String)
    (evs : List Event)
    (h : build_grpc w cc l lcpp = (evs, Except.ok cc')) :
    evs.filterMap static_lib_of =
      [zlib_name w, "cares", "gpr", "address_sorting", l, lcpp] ++
        (if w.secure then ["ssl", "crypto"] else []) := by
  obtain ⟨hevs, -, -⟩ := build_grpc_ok w cc l lcpp evs cc' h
  subst hevs
  rw [List.filterMap_append, List.filterMap_append, List.filterMap_append,
    filterMap_static_cmake, filterMap_static_search, filterMap_static_link_lib]
  split_ifs <;> simp [static_lib_of]

/-- Witness for C4 at a concrete secure Linux world. -/
theorem vendored_static_link_order_witness :
    ((build_grpc secureLinuxWorld CcBuild.new "grpc" "grpc++").1).filterMap static_lib_of =
      [zlib_name secureLinuxWorld, "cares", "gpr", "address_sorting", "grpc", "grpc++"] ++
        (if secureLinuxWorld.secure then ["ssl", "crypto"] else []) :=
  vendored_static_link_order secureLinuxWorld CcBuild.new
    { CcBuild.new with includes := ["grpc/include"] } "grpc" "grpc++" _ rfl

/-- Claim C6: the set of required vendored module directories contains
the boringssl submodule if and only if the security feature is enabled,
and the vendored cmake build is configured with the non-existent
executable path `"fake-go-nonexist"` for `GO_EXECUTABLE` if and only if
the feature is disabled. -/
theorem boringssl_required_iff_secure (w : World) (cc cc' : CcBuild) (l lcpp : String)
    (evs : List Event)
    (h : build_grpc w cc l lcpp = (evs, Except.ok cc')) :
    ("grpc/third_party/boringssl" ∈ grpc_modules w.secure ↔ w.secure = true)
    ∧ (Event.cmakeDefine "GO_EXECUTABLE" "fake-go-nonexist" ∈ evs ↔ w.secure = false) := by
  obtain ⟨hevs, -, -⟩ := build_grpc_ok w cc l lcpp evs cc' h
  subst hevs
  constructor
  · unfold grpc_modules; cases w.secure <;> simp
  · have h1 := cmakeDefine_mem_cmake_iff_go w lcpp
    cases hs : w.secure <;>
      simp [List.mem_append, h1, hs, link_lib_events]

/-- Witness for C6 at a concrete secure Linux world. -/
theorem boringssl_required_iff_secure_witness :
    ("grpc/third_party/boringssl" ∈ grpc_modules secureLinuxWorld.secure ↔
      secureLinuxWorld.secure = true)
    ∧ (Event.cmakeDefine "GO_EXECUTABLE" "fake-go-nonexist" ∈
        (build_grpc secureLinuxWorld CcBuild.new "grpc" "grpc++").1 ↔
      secureLinuxWorld.secure = false) :=
  boringssl_required_iff_secure secureLinuxWorld CcBuild.new
    { CcBuild.new with includes := ["grpc/include"] } "grpc" "grpc++" _ rfl

/-- Claim C5: on the probe path, if pkg-config cannot find a required
library at or above version `1.13.0`, the run ends in a fatal
`probeNotFound` abort, no shim compilation is attempted, and no vendored
cmake build is invoked (no fallback). -/
theorem probe_failure_aborts_before_compile (w : World)
    (hflag : use_pkg_config_flag w = true)
    (h : w.pkg_probe GRPC_VERSION (lib_names w.secure).1 = none ∨
         w.pkg_probe GRPC_VERSION (lib_names w.secure).2 = none) :
    (∃ lib, (main_build w).error = some (BuildError.probeNotFound lib))
    ∧ (∀ a, Event.ccCompile a ∉ (main_build w).trace)
    ∧ (∀ t, Event.cmakeBuildTarget t ∉ (main_build w).trace) :=
  ⟨main_build_pkg_error_of_probe_fail w hflag h,
   fun a => main_build_pkg_no_compile_of_probe_fail w hflag h a,
   fun t => main_build_pkg_no_cmake w hflag t⟩

/-- Witness for C5 at a concrete world whose probe always fails. -/
theorem probe_failure_aborts_before_compile_witness :
    (∃ lib, (main_build pkgFailWorld).error = some (BuildError.probeNotFound lib))
    ∧ (∀ a, Event.ccCompile a ∉ (main_build pkgFailWorld).trace)
    ∧ (∀ t, Event.cmakeBuildTarget t ∉ (main_build pkgFailWorld).trace) :=
  probe_failure_aborts_before_compile pkgFailWorld (by decide) (Or.inl rfl)

/-- Claim C7: on the system-probe path the probe is invoked exactly twice
per library — once before shim compilation with metadata emission
suppressed (collecting exactly the two libraries' include paths), and
once after compilation with metadata emission enabled; on the vendored
path it is never invoked. -/
theorem probe_invoked_twice_per_library (w : World) :
    (use_pkg_config_flag w = true → (main_build w).error = none →
      (main_build w).trace.filterMap probe_or_compile =
        [Sum.inl ((lib_names w.secure).1, false), Sum.inl ((lib_names w.secure).2, false),
         Sum.inr (), Sum.inl ((lib_names w.secure).1, true),
         Sum.inl ((lib_names w.secure).2, true)])
    ∧ (use_pkg_config_flag w = true → ∀ libc libcpp : Library,
        w.pkg_probe GRPC_VERSION (lib_names w.secure).1 = some libc →
        w.pkg_probe GRPC_VERSION (lib_names w.secure).2 = some libcpp →
        (main_build w).cc.includes = libc.include_paths ++ libcpp.include_paths)
    ∧ (use_pkg_config_flag w = false →
        ∀ lib m, Event.pkgProbeCall lib m ∉ (main_build w).trace) := by
  refine ⟨?_, ?_, ?_⟩
  · intro hflag herr
    have henv := (use_pkg_config_flag_iff w).1 hflag
    cases hc : w.pkg_probe GRPC_VERSION (lib_names w.secure).1 with
    | none =>
      rw [main_build_pkg_fail_core_error w henv hc] at herr
      exact absurd herr (by simp)
    | some libc =>
      cases hcpp : w.pkg_probe GRPC_VERSION (lib_names w.secure).2 with
      | none =>
        rw [main_build_pkg_fail_cpp_error w henv libc hc hcpp] at herr
        exact absurd herr (by simp)
      | some libcpp =>
        rw [main_build_pkg_ok_trace w henv libc libcpp hc hcpp]
        simp [probe_or_compile]
  · intro hflag libc libcpp hc hcpp
    exact main_build_pkg_ok_includes w ((use_pkg_config_flag_iff w).1 hflag)
      libc libcpp hc hcpp
  · intro hflag lib m
    exact main_build_no_probe_of_flag_false w hflag lib m

/-- Witness for C7 at a concrete world whose probe succeeds. -/
theorem probe_invoked_twice_per_library_witness :
    (main_build pkgOkWorld).trace.filterMap probe_or_compile =
      [Sum.inl ((lib_names pkgOkWorld.secure).1, false),
       Sum.inl ((lib_names pkgOkWorld.secure).2, false),
       Sum.inr (), Sum.inl ((lib_names pkgOkWorld.secure).1, true),
       Sum.inl ((lib_names pkgOkWorld.secure).2, true)] :=
  (probe_invoked_twice_per_library pkgOkWorld).1 (by decide) (by decide)

/-- Claim C8, counterexample: the `PROFILE` variable is read while
holding non-Unicode data, yet the build neither aborts nor emits a
rerun-if-env-changed record for it — the claim's "every read" does not
hold for the reads made outside `get_env`. -/
theorem env_read_unrecorded_cex :
    winNonUnicodeProfileWorld.env "PROFILE" = EnvVal.nonUnicode
    ∧ Event.envRead "PROFILE" ∈ (main_build winNonUnicodeProfileWorld).trace
    ∧ Event.rerunIfEnvChanged "PROFILE" ∉ (main_build winNonUnicodeProfileWorld).trace
    ∧ (main_build winNonUnicodeProfileWorld).error = none := by
  refine ⟨rfl, ?_, ?_, rfl⟩ <;> decide

/-- Claim C8, amended: variables read through `get_env` (the acquisition
toggle) behave as claimed — a rerun-if-env-changed record is emitted on
every read, an absent variable yields `none`, and a non-Unicode value is
a fatal abort.  The `PROFILE` and `CARGO_CFG_TARGET_ENV` reads inside the
vendored build bypass `get_env`: they emit no rerun record and fall back
to a default value instead of aborting. -/
theorem get_env_contract (w : World) (name : String) :
    (get_env w name).1 = [Event.rerunIfEnvChanged name, Event.envRead name]
    ∧ (w.env name = EnvVal.nonUnicode →
        (get_env w name).2 = Except.error (BuildError.envNotUnicode name))
    ∧ (w.env name = EnvVal.absent → (get_env w name).2 = Except.ok none)
    ∧ (∀ s, w.env name = EnvVal.str s → (get_env w name).2 = Except.ok (some s))
    ∧ (∀ (cc : CcBuild) (l lcpp n : String),
        Event.rerunIfEnvChanged n ∉ (build_grpc w cc l lcpp).1) := by
  refine ⟨rfl, ?_, ?_, ?_, ?_⟩
  · intro hv; simp [get_env, env_var, hv]
  · intro hv; simp [get_env, env_var, hv]
  · intro s hv; simp [get_env, env_var, hv]
  · intro cc l lcpp n; exact rerunIfEnvChanged_not_mem_build_grpc w cc l lcpp n

/-- Witness for C8's amended theorem at a concrete world. -/
theorem get_env_contract_witness :
    (get_env winNonUnicodeProfileWorld "PROFILE").2 =
      Except.error (BuildError.envNotUnicode "PROFILE") :=
  (get_env_contract winNonUnicodeProfileWorld "PROFILE").2.1 rfl

/-- Claim C9: the system-probe strategy is selected if and only if
`GRPCIO_SYS_USE_PKG_CONFIG` is present with the exact Unicode value
`"1"`; any other value (e.g. `"true"`) or absence selects the vendored
build — when the toggle is off no pkg-config probe is ever issued, and
when it is on no vendored cmake build is ever invoked. -/
theorem pkg_config_toggle_exact_one (w : World) :
    (use_pkg_config_flag w = true ↔
      w.env "GRPCIO_SYS_USE_PKG_CONFIG" = EnvVal.str "1")
    ∧ (use_pkg_config_flag w = false →
        ∀ lib m, Event.pkgProbeCall lib m ∉ (main_build w).trace)
    ∧ (use_pkg_config_flag w = true →
        ∀ t, Event.cmakeBuildTarget t ∉ (main_build w).trace)
    ∧ use_pkg_config_flag pkgTrueValueWorld = false
    ∧ use_pkg_config_flag pkgOkWorld = true := by
  refine ⟨use_pkg_config_flag_iff w, ?_, ?_, by decide, by decide⟩
  · intro hflag lib m; exact main_build_no_probe_of_flag_false w hflag lib m
  · intro hflag t; exact main_build_pkg_no_cmake w hflag t

/-- Witness for C9 at a concrete world. -/
theorem pkg_config_toggle_exact_one_witness :
    ∀ lib m, Event.pkgProbeCall lib m ∉ (main_build pkgTrueValueWorld).trace :=
  (pkg_config_toggle_exact_one pkgTrueValueWorld).2.1 (by decide)

/-- Claim C10: on Windows, the profile values `"bench"` and `"release"`
both select the `Release` output subdirectory and the compression library
`"zlibstatic"`, while every other profile value — including an absent
`PROFILE` variable — selects the `Debug` subdirectory and
`"zlibstaticd"`. -/
theorem windows_profile_mapping (w : World) (hwin : w.target_os = Os.windows) :
    ((w.env "PROFILE" = EnvVal.str "bench" ∨ w.env "PROFILE" = EnvVal.str "release") →
      zlib_name w = "zlibstatic" ∧ profile_dir w = "Release")
    ∧ (∀ s, w.env "PROFILE" = EnvVal.str s → s ≠ "bench" → s ≠ "release" →
      zlib_name w = "zlibstaticd" ∧ profile_dir w = "Debug")
    ∧ (w.env "PROFILE" = EnvVal.absent →
      zlib_name w = "zlibstaticd" ∧ profile_dir w = "Debug") := by
  unfold zlib_name profile_dir profile_value env_var windows_profile unwrap_or
  refine ⟨?_, ?_, ?_⟩
  · rintro (hp | hp) <;> simp [hwin, hp]
  · intro s hp h1 h2; simp [hwin, hp, h1, h2]
  · intro hp; simp [hwin, hp]

/-- Witness for C10 at concrete Windows worlds. -/
theorem windows_profile_mapping_witness :
    (zlib_name winReleaseWorld = "zlibstatic" ∧ profile_dir winReleaseWorld = "Release")
    ∧ (zlib_name winDebugWorld = "zlibstaticd" ∧ profile_dir winDebugWorld = "Debug") :=
  ⟨(windows_profile_mapping winReleaseWorld rfl).1 (Or.inr rfl),
   (windows_profile_mapping winDebugWorld rfl).2.1 "debug" rfl (by decide) (by decide)⟩

end GrpcSys
